import Mathlib

/-!
Shallow embedding of the offline-first cache/queue/sync service in
`mobile/services/offline.ts` (class `OfflineService`).

Modelling conventions:
* `AsyncStorage` is modelled by the `Store` structure: one typed field per
  storage key, `none` meaning the key is absent.  Storage I/O faults are
  modelled by a `Faults` oracle saying, per key, whether a read or a write
  raises; a `try/catch` in the source becomes an explicit branch on the
  fault flag, and an uncaught raise becomes an `Except.error` result with
  the store left as it was at the raise point.
* Timestamps (`Date` values, `Date.now()`, ISO strings) are modelled as
  natural numbers counting milliseconds; `new Date(a) > b` becomes `b < a`.
* The network (`NetInfo`, `generateQuestion`, `validateAnswer`) is modelled
  by an `online : Bool` flag and response oracles passed as arguments.
* `question: any` payloads are modelled as opaque `String`s.
-/

namespace Offline

/-- The storage keys of `STORAGE_KEYS` in the source. -/
inductive StorageKey where
  | cachedQuestions
  | pendingAnswers
  | userProgress
  | lastSync
  | offlineStats
deriving DecidableEq

/-- Which storage reads/writes raise; models AsyncStorage I/O failures. -/
structure Faults where
  readFails : StorageKey → Bool
  writeFails : StorageKey → Bool

/-- Fault-free storage. -/
def noFaults : Faults where
  readFails := fun _ => false
  writeFails := fun _ => false

/-- The error value carried by an uncaught storage write failure. -/
def storageWriteError : String := "storage write failed"

/-- Source interface `CachedQuestion`. -/
structure CachedQuestion where
  id : String
  topic_slug : String
  difficulty_tier : Nat
  question : String
  cached_at : Nat
  expires_at : Nat
deriving DecidableEq

/-- Source interface `PendingAnswer`. -/
structure PendingAnswer where
  id : String
  question_id : String
  user_answer : String
  response_time_ms : Nat
  answered_at : Nat
  topic_slug : String
deriving DecidableEq

/-- Source interface `OfflineProgress`; `topic_mastery` is the record
mapping topic slugs to mastery numbers, as an association list. -/
structure OfflineProgress where
  user_id : String
  total_xp : Nat
  level : Nat
  streak : Nat
  topic_mastery : List (String × Int)
  last_updated : Nat
deriving DecidableEq

/-- Source interface `SyncResult`. -/
structure SyncResult where
  synced_answers : Nat
  failed_answers : Nat
  new_xp : Nat
  errors : List String
deriving DecidableEq

/-- The stats object persisted under `OFFLINE_STATS`. -/
structure OfflineStats where
  questions_answered_offline : Nat
  last_offline_practice : Option Nat
deriving DecidableEq

/-- Response of the remote `validateAnswer` call; `xp_earned` is optional
(absent models a response without that field). -/
structure ValidateResponse where
  xp_earned : Option Nat
deriving DecidableEq

/-- The persistent key-value store: one typed slot per storage key,
`none` when the key is absent. -/
structure Store where
  cached_questions : Option (List CachedQuestion)
  pending_answers : Option (List PendingAnswer)
  user_progress : Option OfflineProgress
  last_sync : Option Nat
  offline_stats : Option OfflineStats
deriving DecidableEq

/-- A store with every key absent. -/
def emptyStore : Store where
  cached_questions := none
  pending_answers := none
  user_progress := none
  last_sync := none
  offline_stats := none

/-- The raw cached-question list behind the `CACHED_QUESTIONS` key
(empty when the key is absent). -/
def cacheList (s : Store) : List CachedQuestion :=
  s.cached_questions.getD []

/-- `getCachedQuestions(topic_slug?)` (offline.ts 150-171): reads the
cache key inside try/catch (a read fault or an absent key yields `[]`),
drops expired items (`new Date(q.expires_at) > now`), then optionally
filters by topic. -/
def getCachedQuestions (f : Faults) (now : Nat) (topic_slug : Option String)
    (s : Store) : List CachedQuestion :=
  if f.readFails StorageKey.cachedQuestions then []
  else
    let questions := cacheList s
    let questions := questions.filter fun q => decide (now < q.expires_at)
    match topic_slug with
    | some t => questions.filter fun q => q.topic_slug == t
    | none => questions

/-- `getOfflineQuestion(topic_slug)` (offline.ts 176-195): takes the first
still-valid cached question for the topic, rewrites the cache key without
every question whose `id` equals the taken one's, and returns the payload;
`null` (here `none`) when nothing is available.  The `setItem` call is not
inside a try/catch, so a write fault propagates. -/
def getOfflineQuestion (f : Faults) (now : Nat) (topic_slug : String)
    (s : Store) : Except String (Option String) × Store :=
  match getCachedQuestions f now (some topic_slug) s with
  | [] => (Except.ok none, s)
  | first :: _ =>
    let allQuestions := getCachedQuestions f now none s
    let updated := allQuestions.filter fun q => q.id != first.id
    if f.writeFails StorageKey.cachedQuestions then
      (Except.error storageWriteError, s)
    else
      (Except.ok (some first.question), { s with cached_questions := some updated })

/-- `getCacheCount(topic_slug?)` (offline.ts 200-203). -/
def getCacheCount (f : Faults) (now : Nat) (topic_slug : Option String)
    (s : Store) : Nat :=
  (getCachedQuestions f now topic_slug s).length

/-- The fetch loop of `cacheQuestions` (offline.ts 109-128): one
`CachedQuestion` per successful `generateQuestion` call, indexed fetch
failures skipped (`catch` + `console.warn`).  Ids are
`cached_${Date.now()}_${i}`; `difficulty_tier || 1` maps the absent and
the zero difficulty to 1; `expires_at` is `now` plus the 24-hour TTL. -/
def fillBatch (fetch : Nat → Except String String) (now : Nat)
    (topic_slug : String) (count : Nat) (difficulty_tier : Option Nat) :
    List CachedQuestion :=
  (List.range count).filterMap fun i =>
    match fetch i with
    | Except.ok question =>
        some { id := "cached_" ++ Nat.repr now ++ "_" ++ Nat.repr i
               topic_slug := topic_slug
               difficulty_tier :=
                 if difficulty_tier.getD 0 = 0 then 1 else difficulty_tier.getD 0
               question := question
               cached_at := now
               expires_at := now + 24 * 60 * 60 * 1000 }
    | Except.error _ => none

/-- `cacheQuestions(topic_slug, count, difficulty_tier?)` (offline.ts
96-145): returns 0 untouched when offline; otherwise fetches up to
`count` items, merges them after the existing (already expiry-filtered)
cache, filters expired items once more, and persists.  The final
`setItem` is not inside a try/catch, so a write fault propagates.
Returns the number of items actually fetched. -/
def cacheQuestions (f : Faults) (online : Bool)
    (fetch : Nat → Except String String) (now : Nat) (topic_slug : String)
    (count : Nat) (difficulty_tier : Option Nat) (s : Store) :
    Except String Nat × Store :=
  if !online then (Except.ok 0, s)
  else
    let cached := fillBatch fetch now topic_slug count difficulty_tier
    let existing := getCachedQuestions f now none s
    let merged := existing ++ cached
    let valid := merged.filter fun q => decide (now < q.expires_at)
    if f.writeFails StorageKey.cachedQuestions then
      (Except.error storageWriteError, s)
    else
      (Except.ok cached.length, { s with cached_questions := some valid })

/-- `getPendingAnswers()` (offline.ts 240-248): read inside try/catch, a
read fault or an absent key yields `[]`. -/
def getPendingAnswers (f : Faults) (s : Store) : List PendingAnswer :=
  if f.readFails StorageKey.pendingAnswers then []
  else s.pending_answers.getD []

/-- `updateOfflineStats(answeredQuestion)` (offline.ts 355-372): entirely
inside try/catch, so neither a read nor a write fault escapes; on any
fault the store is left as it was. -/
def updateOfflineStats (f : Faults) (now : Nat) (answeredQuestion : Bool)
    (s : Store) : Store :=
  if f.readFails StorageKey.offlineStats then s
  else
    let stats := s.offline_stats.getD
      { questions_answered_offline := 0, last_offline_practice := none }
    let stats :=
      if answeredQuestion then
        { questions_answered_offline := stats.questions_answered_offline + 1
          last_offline_practice := some now }
      else stats
    if f.writeFails StorageKey.offlineStats then s
    else { s with offline_stats := some stats }

/-- `queueAnswer(question_id, user_answer, response_time_ms, topic_slug)`
(offline.ts 210-235): builds a `PendingAnswer` with id
`pending_${Date.now()}`, appends it to the pending list, persists, then
updates the offline stats.  The `setItem` call is not inside a try/catch,
so a write fault propagates (before the stats update). -/
def queueAnswer (f : Faults) (now : Nat) (question_id : String)
    (user_answer : String) (response_time_ms : Nat) (topic_slug : String)
    (s : Store) : Except String Unit × Store :=
  let pending : PendingAnswer :=
    { id := "pending_" ++ Nat.repr now
      question_id := question_id
      user_answer := user_answer
      response_time_ms := response_time_ms
      answered_at := now
      topic_slug := topic_slug }
  let existing := getPendingAnswers f s
  if f.writeFails StorageKey.pendingAnswers then
    (Except.error storageWriteError, s)
  else
    let s1 := { s with pending_answers := some (existing ++ [pending]) }
    (Except.ok (), updateOfflineStats f now true s1)

/-- The diagnostic string appended on a failed submission
(offline.ts 288). -/
def syncDiagnostic (answer : PendingAnswer) (e : String) : String :=
  "Failed to sync answer " ++ answer.id ++ ": " ++ e

/-- The per-answer loop of `syncPendingAnswers` (offline.ts 274-291):
processes the pending list in order; a successful `validateAnswer` call
increments the success count and accumulates `xp_earned`; a failed one
increments the failure count, appends a diagnostic, and keeps the answer
in `remaining`.  Stated head-first so the diagnostics and the remaining
answers keep their original order. -/
def processAnswers
    (validate : PendingAnswer → Except String ValidateResponse) :
    List PendingAnswer → SyncResult × List PendingAnswer
  | [] =>
      ({ synced_answers := 0, failed_answers := 0, new_xp := 0, errors := [] }, [])
  | answer :: rest =>
    match validate answer with
    | Except.ok response =>
        let r := processAnswers validate rest
        ({ r.1 with
            synced_answers := r.1.synced_answers + 1
            new_xp := r.1.new_xp + response.xp_earned.getD 0 }, r.2)
    | Except.error e =>
        let r := processAnswers validate rest
        ({ r.1 with
            failed_answers := r.1.failed_answers + 1
            errors := syncDiagnostic answer e :: r.1.errors }, answer :: r.2)

/-- `syncPendingAnswers()` (offline.ts 253-309): the drain.  Returns a
zero-effect `SyncResult` when a sync is already in progress or the device
is offline; otherwise processes every pending answer, rewrites the
pending key with only the failed ones, and records the last-sync time.
The two `setItem` calls sit in a `try`/`finally` with no `catch`, so a
write fault propagates (after the guard flag is released). -/
def syncPendingAnswers (f : Faults) (syncInProgress : Bool) (online : Bool)
    (validate : PendingAnswer → Except String ValidateResponse) (now : Nat)
    (s : Store) : Except String SyncResult × Store :=
  if syncInProgress then
    (Except.ok { synced_answers := 0, failed_answers := 0, new_xp := 0
                 errors := ["Sync already in progress"] }, s)
  else if !online then
    (Except.ok { synced_answers := 0, failed_answers := 0, new_xp := 0
                 errors := ["Device is offline"] }, s)
  else
    let pending := getPendingAnswers f s
    let r := processAnswers validate pending
    if f.writeFails StorageKey.pendingAnswers then
      (Except.error storageWriteError, s)
    else
      let s1 := { s with pending_answers := some r.2 }
      if f.writeFails StorageKey.lastSync then
        (Except.error storageWriteError, s1)
      else
        (Except.ok r.1, { s1 with last_sync := some now })

/-- `saveProgress(progress)` (offline.ts 316-324): persists the snapshot
with `last_updated` refreshed; the `setItem` has no try/catch. -/
def saveProgress (f : Faults) (now : Nat) (progress : OfflineProgress)
    (s : Store) : Except String Unit × Store :=
  if f.writeFails StorageKey.userProgress then
    (Except.error storageWriteError, s)
  else
    (Except.ok (), { s with user_progress := some { progress with last_updated := now } })

/-- `getProgress()` (offline.ts 329-337): read inside try/catch, a read
fault or an absent key yields `null` (here `none`). -/
def getProgress (f : Faults) (s : Store) : Option OfflineProgress :=
  if f.readFails StorageKey.userProgress then none
  else s.user_progress

/-- Record-style assignment `topic_mastery[topic_slug] = mastery`:
overwrite the key when present, otherwise add it. -/
def setMastery (m : List (String × Int)) (topic_slug : String)
    (mastery : Int) : List (String × Int) :=
  if m.any fun p => p.1 == topic_slug then
    m.map fun p => if p.1 == topic_slug then (topic_slug, mastery) else p
  else m ++ [(topic_slug, mastery)]

/-- `updateLocalMastery(topic_slug, mastery)` (offline.ts 342-348): only
acts when `getProgress` yields a snapshot; otherwise does nothing. -/
def updateLocalMastery (f : Faults) (now : Nat) (topic_slug : String)
    (mastery : Int) (s : Store) : Except String Unit × Store :=
  match getProgress f s with
  | some progress =>
      saveProgress f now
        { progress with topic_mastery := setMastery progress.topic_mastery topic_slug mastery } s
  | none => (Except.ok (), s)

/-- `clearExpiredCache()` (offline.ts 427-439): reads the cache through
`getCachedQuestions` (which already drops expired items), filters expired
items again, persists, and returns how many the second filter dropped.
The `setItem` has no try/catch. -/
def clearExpiredCache (f : Faults) (now : Nat) (s : Store) :
    Except String Nat × Store :=
  let questions := getCachedQuestions f now none s
  let valid := questions.filter fun q => decide (now < q.expires_at)
  let removed := questions.length - valid.length
  if f.writeFails StorageKey.cachedQuestions then
    (Except.error storageWriteError, s)
  else
    (Except.ok removed, { s with cached_questions := some valid })

/-- Fixture for C1-style scenarios: a submission oracle answering from the
entry's originating work-item id. -/
def rejectW2 : PendingAnswer → Except String ValidateResponse := fun a =>
  if a.question_id == "w2" then Except.error "rejected"
  else Except.ok { xp_earned := some 5 }

/-- Fixture: pending results R1, R2, R3 in enqueue order. -/
def pendingR1R2R3 : List PendingAnswer :=
  [{ id := "pending_1", question_id := "w1", user_answer := "a"
     response_time_ms := 10, answered_at := 1, topic_slug := "t" },
   { id := "pending_2", question_id := "w2", user_answer := "b"
     response_time_ms := 10, answered_at := 2, topic_slug := "t" },
   { id := "pending_3", question_id := "w3", user_answer := "c"
     response_time_ms := 10, answered_at := 3, topic_slug := "t" }]

/-- Fixture: a store holding the queue R1, R2, R3. -/
def queueStore : Store := { emptyStore with pending_answers := some pendingR1R2R3 }

/-- Fixture: a cached arithmetic item created at time 0 with the 24-hour
TTL, as `fill` would create it. -/
def arithItem (n : Nat) : CachedQuestion :=
  { id := "cached_0_" ++ Nat.repr n, topic_slug := "arithmetic"
    difficulty_tier := 1, question := "q", cached_at := 0, expires_at := 86400000 }

/-- Fixture: three arithmetic items cached at time 0. -/
def arithStore : Store :=
  { emptyStore with cached_questions := some [arithItem 0, arithItem 1, arithItem 2] }

/-- Fixture: two cached items carrying the same identifier. -/
def dupFirst : CachedQuestion :=
  { id := "dup", topic_slug := "a", difficulty_tier := 1
    question := "q1", cached_at := 0, expires_at := 100 }

/-- Fixture: the second item with the colliding identifier. -/
def dupSecond : CachedQuestion :=
  { id := "dup", topic_slug := "a", difficulty_tier := 1
    question := "q2", cached_at := 0, expires_at := 100 }

/-- Fixture: a store whose cache holds the two same-id items. -/
def dupStore : Store :=
  { emptyStore with cached_questions := some [dupFirst, dupSecond] }

/-- Fixture: an item already expired at time 100. -/
def staleItem : CachedQuestion :=
  { id := "old", topic_slug := "a", difficulty_tier := 1
    question := "q", cached_at := 0, expires_at := 50 }

/-- Fixture: an item still valid at time 100. -/
def freshItem : CachedQuestion :=
  { id := "new", topic_slug := "a", difficulty_tier := 1
    question := "q", cached_at := 0, expires_at := 1000 }

/-- Fixture: a store holding one already-expired item and one fresh one. -/
def mixedStore : Store :=
  { emptyStore with cached_questions := some [staleItem, freshItem] }

/-- Fixture: storage where every read and every write raises. -/
def allFaults : Faults where
  readFails := fun _ => true
  writeFails := fun _ => true

/-- Decimal value of a digit character (spec-side observation used to
read the numeric part back out of a generated identifier). -/
def digitVal (c : Char) : Nat := c.toNat - 48

/-- Evaluate a most-significant-first digit string back to a number
(spec-side observation). -/
def evalDigits (l : List Char) : Nat :=
  l.foldl (fun acc c => 10 * acc + digitVal c) 0

/-- Whether a remote call succeeded (spec-side observation). -/
def submitOk {α : Type} (r : Except String α) : Bool :=
  match r with
  | Except.ok _ => true
  | Except.error _ => false

/-- The reward carried by a submission response: 0 for a failure or for a
response without `xp_earned` (spec-side observation). -/
def xpOf (r : Except String ValidateResponse) : Nat :=
  match r with
  | Except.ok response => response.xp_earned.getD 0
  | Except.error _ => 0

/-- A fill or take operation over the Item Cache, used to state
at-most-once delivery over whole operation sequences. -/
inductive CacheOp where
  | fill (online : Bool) (fetch : Nat → Except String String) (now : Nat)
      (topic_slug : String) (count : Nat) (difficulty_tier : Option Nat)
  | take (now : Nat) (topic_slug : String)

/-- Runs a sequence of cache operations on fault-free storage and
returns the identifiers of the items the takes delivered - a take that
delivers something delivers exactly the head of the still-valid list for
its topic (`getOfflineQuestion_of_cons`), whose identifier is recorded
here - together with the final store. -/
def runCacheOps : List CacheOp → Store → List String × Store
  | [], s => ([], s)
  | CacheOp.fill online fetch now topic count diff :: ops, s =>
      runCacheOps ops (cacheQuestions noFaults online fetch now topic count diff s).2
  | CacheOp.take now topic :: ops, s =>
      (((getCachedQuestions noFaults now (some topic) s).head?.map CachedQuestion.id).toList ++
         (runCacheOps ops (getOfflineQuestion noFaults now topic s).2).1,
       (runCacheOps ops (getOfflineQuestion noFaults now topic s).2).2)

/-- The identifiers a single operation can create: an online fill
creates the identifiers of its fetched batch, an offline fill and a take
create none. -/
def fillIds (op : CacheOp) : List String :=
  match op with
  | CacheOp.fill online fetch now topic count diff =>
      if online then (fillBatch fetch now topic count diff).map CachedQuestion.id else []
  | CacheOp.take _ _ => []

/-- All identifiers a sequence of operations can create. -/
def opsIds (ops : List CacheOp) : List String :=
  (ops.map fillIds).flatten

/-- The identifiers currently in the persisted cache. -/
def cacheIds (s : Store) : List String :=
  (cacheList s).map CachedQuestion.id

/-- Fixture: a fetch oracle that always succeeds. -/
def okFetch : Nat → Except String String := fun _ => Except.ok "payload"

/-- Fixture: fill one item then take it, twice, all in the same
millisecond - both fills generate the identifier `cached_0_0`. -/
def collideOps : List CacheOp :=
  [CacheOp.fill true okFetch 0 "a" 1 none, CacheOp.take 0 "a",
   CacheOp.fill true okFetch 0 "a" 1 none, CacheOp.take 0 "a"]

/-- Fixture: the same trace with the second fill one millisecond later,
so all generated identifiers are distinct. -/
def freshOps : List CacheOp :=
  [CacheOp.fill true okFetch 0 "a" 1 none, CacheOp.take 0 "a",
   CacheOp.fill true okFetch 1 "a" 1 none, CacheOp.take 1 "a"]

end Offline

deriving instance DecidableEq for Except

namespace Offline

theorem mem_getCachedQuestions_valid (f : Faults) (now : Nat)
    (t : Option String) (s : Store) (q : CachedQuestion)
    (hq : q ∈ getCachedQuestions f now t s) : now < q.expires_at := by
  unfold getCachedQuestions at hq
  split at hq
  · simp at hq
  · cases t <;> simp_all [List.mem_filter]

theorem mem_getCachedQuestions_mem_cache (f : Faults) (now : Nat)
    (t : Option String) (s : Store) (q : CachedQuestion)
    (hq : q ∈ getCachedQuestions f now t s) : q ∈ cacheList s := by
  unfold getCachedQuestions at hq
  split at hq
  · simp at hq
  · cases t <;> simp_all [List.mem_filter]

theorem getCachedQuestions_filter_valid (f : Faults) (now : Nat)
    (t : Option String) (s : Store) :
    (getCachedQuestions f now t s).filter (fun q => decide (now < q.expires_at)) =
      getCachedQuestions f now t s := by
  rw [List.filter_eq_self]
  intro q hq
  simpa using mem_getCachedQuestions_valid f now t s q hq

theorem getOfflineQuestion_of_empty (f : Faults) (now : Nat)
    (topic : String) (s : Store)
    (h : getCachedQuestions f now (some topic) s = []) :
    getOfflineQuestion f now topic s = (Except.ok none, s) := by
  unfold getOfflineQuestion
  rw [h]

theorem getOfflineQuestion_of_cons (f : Faults) (now : Nat)
    (topic : String) (s : Store) (first : CachedQuestion)
    (tl : List CachedQuestion)
    (h : getCachedQuestions f now (some topic) s = first :: tl)
    (hw : f.writeFails StorageKey.cachedQuestions = false) :
    getOfflineQuestion f now topic s =
      (Except.ok (some first.question),
       { s with cached_questions := some ((getCachedQuestions f now none s).filter fun q => q.id != first.id) }) := by
  unfold getOfflineQuestion
  rw [h]
  simp [hw]

theorem getCachedQuestions_of_write (f : Faults) (now : Nat) (s : Store)
    (L : List CachedQuestion)
    (hr : f.readFails StorageKey.cachedQuestions = false) :
    getCachedQuestions f now none { s with cached_questions := some L } =
      L.filter fun q => decide (now < q.expires_at) := by
  simp [getCachedQuestions, hr, cacheList]

theorem getCachedQuestions_idem (f : Faults) (now : Nat) (s : Store) :
    getCachedQuestions f now none { s with cached_questions := some (getCachedQuestions f now none s) } =
      getCachedQuestions f now none s := by
  by_cases hr : f.readFails StorageKey.cachedQuestions
  · simp [getCachedQuestions, hr]
  · rw [getCachedQuestions_of_write f now s _ (by simpa using hr)]
    exact getCachedQuestions_filter_valid f now none s

/-- Claim C2: a second `drain()` while one is in progress returns
immediately with the zero-effect "Sync already in progress" outcome; the
result is the same for every submission oracle and every storage fault
pattern (so no submission and no storage access can have had an effect),
and the store - persisted queue and last-sync timestamp included - is
returned unchanged. -/
theorem drain_reentrancy_guard (f : Faults) (online : Bool)
    (v : PendingAnswer → Except String ValidateResponse) (now : Nat)
    (s : Store) :
    syncPendingAnswers f true online v now s =
      (Except.ok { synced_answers := 0, failed_answers := 0, new_xp := 0, errors := ["Sync already in progress"] }, s) := rfl

/-- Claim C4: reads of the cache never surface an expired item: every
item of `getCachedQuestions` (with or without a topic filter) is strictly
before its `expires_at`, `getCacheCount` counts exactly that filtered
list, and `getOfflineQuestion` returns precisely the payload of the head
of that still-valid list (`none` when the category has no valid item). -/
theorem take_and_count_exclude_expired (f : Faults) (now : Nat)
    (topic : String) (s : Store)
    (hw : f.writeFails StorageKey.cachedQuestions = false) :
    ((getCachedQuestions f now (some topic) s).all fun q => decide (now < q.expires_at)) = true ∧
    ((getCachedQuestions f now none s).all fun q => decide (now < q.expires_at)) = true ∧
    getCacheCount f now (some topic) s = (getCachedQuestions f now (some topic) s).length ∧
    (getOfflineQuestion f now topic s).1 = Except.ok ((getCachedQuestions f now (some topic) s).head?.map CachedQuestion.question) := by
  refine ⟨?_, ?_, rfl, ?_⟩
  · rw [List.all_eq_true]
    intro q hq
    simpa using mem_getCachedQuestions_valid f now (some topic) s q hq
  · rw [List.all_eq_true]
    intro q hq
    simpa using mem_getCachedQuestions_valid f now none s q hq
  · cases hq : getCachedQuestions f now (some topic) s with
    | nil => rw [getOfflineQuestion_of_empty f now topic s hq]; rfl
    | cons first tl => rw [getOfflineQuestion_of_cons f now topic s first tl hq hw]; rfl

/-- Witness for C4 at the spec scenario: three items cached at T0 = 0
with the 24-hour TTL; at T0 + 25h (= 90000000 ms) `take` yields "none
available" and `count` yields 0. -/
theorem take_and_count_exclude_expired_witness :
    (((getCachedQuestions noFaults 90000000 (some "arithmetic") arithStore).all fun q => decide (90000000 < q.expires_at)) = true ∧
     ((getCachedQuestions noFaults 90000000 none arithStore).all fun q => decide (90000000 < q.expires_at)) = true ∧
     getCacheCount noFaults 90000000 (some "arithmetic") arithStore = (getCachedQuestions noFaults 90000000 (some "arithmetic") arithStore).length ∧
     (getOfflineQuestion noFaults 90000000 "arithmetic" arithStore).1 = Except.ok ((getCachedQuestions noFaults 90000000 (some "arithmetic") arithStore).head?.map CachedQuestion.question)) ∧
    getOfflineQuestion noFaults 90000000 "arithmetic" arithStore = (Except.ok none, arithStore) ∧
    getCacheCount noFaults 90000000 (some "arithmetic") arithStore = 0 :=
  ⟨take_and_count_exclude_expired noFaults 90000000 "arithmetic" arithStore rfl, by decide, by decide⟩

/-- Claim C8: `sweep` is idempotent: immediately re-running
`clearExpiredCache` at the same current time removes nothing - it
returns 0 and leaves the persisted cache exactly as the first run left
it. -/
theorem sweep_idempotent (f : Faults) (now : Nat) (s : Store)
    (hw : f.writeFails StorageKey.cachedQuestions = false) :
    clearExpiredCache f now (clearExpiredCache f now s).2 =
      (Except.ok 0, (clearExpiredCache f now s).2) := by
  have h1 : (clearExpiredCache f now s).2 = { s with cached_questions := some (getCachedQuestions f now none s) } := by
    simp [clearExpiredCache, hw, getCachedQuestions_filter_valid]
  rw [h1]
  simp [clearExpiredCache, hw, getCachedQuestions_idem f now s, getCachedQuestions_filter_valid, Nat.sub_self]

/-- Witness for C8: a cache holding one expired and one fresh item at
time 100; the second sweep returns 0 and changes nothing, and the first
sweep did persist only the fresh item. -/
theorem sweep_idempotent_witness :
    clearExpiredCache noFaults 100 (clearExpiredCache noFaults 100 mixedStore).2 = (Except.ok 0, (clearExpiredCache noFaults 100 mixedStore).2) ∧
    (clearExpiredCache noFaults 100 mixedStore).2.cached_questions = some [freshItem] :=
  ⟨sweep_idempotent noFaults 100 mixedStore rfl, by decide⟩

/-- Claim C9: one `take` removes from the persisted cache every item
whose identifier equals the taken item's identifier, not just the item it
returns: the rewritten cache is the still-valid list with all matching
identifiers filtered out, and every surviving item has a different
identifier. -/
theorem take_removes_every_matching_id (f : Faults) (now : Nat)
    (topic : String) (s : Store) (first : CachedQuestion)
    (tl : List CachedQuestion)
    (hq : getCachedQuestions f now (some topic) s = first :: tl)
    (hw : f.writeFails StorageKey.cachedQuestions = false) :
    getOfflineQuestion f now topic s =
      (Except.ok (some first.question),
       { s with cached_questions := some ((getCachedQuestions f now none s).filter fun q => q.id != first.id) }) ∧
    (((getOfflineQuestion f now topic s).2.cached_questions.getD []).all fun q => q.id != first.id) = true := by
  have h := getOfflineQuestion_of_cons f now topic s first tl hq hw
  refine ⟨h, ?_⟩
  rw [h]
  simp only [Option.getD_some]
  rw [List.all_eq_true]
  intro q hmem
  exact (List.mem_filter.mp hmem).2

/-- Witness for C9: two cached items share the identifier "dup"; one
`take` returns the first one's payload and the persisted cache afterwards
is empty - the second same-id item was dropped without being returned. -/
theorem take_removes_every_matching_id_witness :
    (getOfflineQuestion noFaults 50 "a" dupStore =
      (Except.ok (some dupFirst.question),
       { dupStore with cached_questions := some ((getCachedQuestions noFaults 50 none dupStore).filter fun q => q.id != dupFirst.id) }) ∧
     (((getOfflineQuestion noFaults 50 "a" dupStore).2.cached_questions.getD []).all fun q => q.id != dupFirst.id) = true) ∧
    (getOfflineQuestion noFaults 50 "a" dupStore).2.cached_questions = some [] :=
  ⟨take_removes_every_matching_id noFaults 50 "a" dupStore dupFirst [dupSecond] (by decide) rfl, by decide⟩

theorem processAnswers_eq (v : PendingAnswer → Except String ValidateResponse)
    (l : List PendingAnswer) :
    processAnswers v l =
      ({ synced_answers := (l.filter fun a => submitOk (v a)).length
         failed_answers := (l.filter fun a => !submitOk (v a)).length
         new_xp := ((l.filter fun a => submitOk (v a)).map fun a => xpOf (v a)).sum
         errors := l.filterMap fun a => match v a with
           | Except.ok _ => none
           | Except.error e => some (syncDiagnostic a e) },
       l.filter fun a => !submitOk (v a)) := by
  induction l with
  | nil => rfl
  | cons a rest ih =>
    cases hva : v a with
    | ok response =>
        simp [processAnswers, hva, ih, List.filter_cons, List.filterMap_cons, submitOk, xpOf, Nat.add_comm]
    | error e =>
        simp [processAnswers, hva, ih, List.filter_cons, List.filterMap_cons, submitOk, xpOf]

/-- Claim C1: a completed drain (guard clear, device online, fault-free
storage) processes the pending list in its enqueue order and ends with:
the persisted queue holding exactly the entries whose submission failed,
in their original relative order; a success count equal to the number of
accepted entries; a failure count equal to the number of rejected or
errored entries; the accumulated reward equal to the sum of the rewards
the server returned for the accepted entries; the per-failure diagnostics
in processing order; and the last-sync timestamp set. -/
theorem drain_partial_failure_bookkeeping
    (v : PendingAnswer → Except String ValidateResponse) (now : Nat)
    (s : Store) :
    syncPendingAnswers noFaults false true v now s =
      (Except.ok
        { synced_answers := ((getPendingAnswers noFaults s).filter fun a => submitOk (v a)).length
          failed_answers := ((getPendingAnswers noFaults s).filter fun a => !submitOk (v a)).length
          new_xp := (((getPendingAnswers noFaults s).filter fun a => submitOk (v a)).map fun a => xpOf (v a)).sum
          errors := (getPendingAnswers noFaults s).filterMap fun a => match v a with
            | Except.ok _ => none
            | Except.error e => some (syncDiagnostic a e) },
       { s with pending_answers := some ((getPendingAnswers noFaults s).filter fun a => !submitOk (v a))
                last_sync := some now }) := by
  simp [syncPendingAnswers, noFaults, processAnswers_eq]

/-- Witness-style instantiation of C1 at the spec scenario (not required
for the gate, since C1 has no hypothesis; kept as the concrete check):
R1, R2, R3 queued, the server accepts R1 and R3 with 5 XP each and
rejects R2 - afterwards the queue holds only R2 and the outcome reports
2 successes, 1 failure, 10 XP. -/
theorem drain_scenario_r1r2r3 :
    (syncPendingAnswers noFaults false true rejectW2 100 queueStore).1 =
      Except.ok { synced_answers := 2, failed_answers := 1, new_xp := 10
                  errors := ["Failed to sync answer pending_2: rejected"] } ∧
    (syncPendingAnswers noFaults false true rejectW2 100 queueStore).2.pending_answers =
      some [{ id := "pending_2", question_id := "w2", user_answer := "b", response_time_ms := 10, answered_at := 2, topic_slug := "t" }] := by
  constructor <;> decide

theorem length_filterMap_eq_countP {α β : Type} (g : α → Option β)
    (l : List α) :
    (l.filterMap g).length = l.countP fun a => (g a).isSome := by
  induction l with
  | nil => rfl
  | cons a rest ih =>
      cases hga : g a <;> simp [List.filterMap_cons, hga, List.countP_cons, ih]

theorem fillBatch_fields (fetch : Nat → Except String String) (now : Nat)
    (topic : String) (count : Nat) (diff : Option Nat) (q : CachedQuestion)
    (hq : q ∈ fillBatch fetch now topic count diff) :
    q.cached_at = now ∧ q.expires_at = now + 24 * 60 * 60 * 1000 := by
  unfold fillBatch at hq
  rw [List.mem_filterMap] at hq
  obtain ⟨i, _, hgi⟩ := hq
  cases hfi : fetch i with
  | ok question => rw [hfi] at hgi; cases hgi; exact ⟨rfl, rfl⟩
  | error e => rw [hfi] at hgi; cases hgi

/-- Claim C3: `fill` returns 0 and leaves the store untouched when the
device is offline (for every fault pattern); online with fault-free
storage it persists the already-swept existing cache followed by one
`CachedQuestion` per successful fetch and returns how many it added; the
number added is the number of indices below `count` whose fetch
succeeded (individual failures are swallowed, the batch continues); and
every added item expires exactly its cached-at time plus the 24-hour
TTL. -/
theorem fill_offline_and_batch_semantics (f : Faults)
    (fetch : Nat → Except String String) (now : Nat) (topic : String)
    (count : Nat) (diff : Option Nat) (s : Store) :
    cacheQuestions f false fetch now topic count diff s = (Except.ok 0, s) ∧
    cacheQuestions noFaults true fetch now topic count diff s =
      (Except.ok (fillBatch fetch now topic count diff).length,
       { s with cached_questions := some (getCachedQuestions noFaults now none s ++ fillBatch fetch now topic count diff) }) ∧
    (fillBatch fetch now topic count diff).length = (List.range count).countP (fun i => submitOk (fetch i)) ∧
    ((fillBatch fetch now topic count diff).all fun q => decide (q.expires_at = q.cached_at + 24 * 60 * 60 * 1000)) = true := by
  refine ⟨rfl, ?_, ?_, ?_⟩
  · have hbatch : (fillBatch fetch now topic count diff).filter (fun q => decide (now < q.expires_at)) = fillBatch fetch now topic count diff := by
      rw [List.filter_eq_self]
      intro q hq
      have h2 := (fillBatch_fields fetch now topic count diff q hq).2
      simp [h2]
    simp [cacheQuestions, List.filter_append, getCachedQuestions_filter_valid, hbatch, noFaults]
  · unfold fillBatch
    rw [length_filterMap_eq_countP]
    apply List.countP_congr
    intro i _
    cases hfi : fetch i <;> simp [hfi, submitOk]
  · rw [List.all_eq_true]
    intro q hq
    have h := fillBatch_fields fetch now topic count diff q hq
    simp [h.1, h.2]

theorem digitVal_digitChar (d : Nat) (hd : d < 10) :
    digitVal (Nat.digitChar d) = d := by
  unfold digitVal
  interval_cases d <;> rfl

theorem toDigitsCore_acc (f : Nat) : ∀ (n : Nat) (l : List Char),
    Nat.toDigitsCore 10 f n l = Nat.toDigitsCore 10 f n [] ++ l := by
  induction f with
  | zero => intro n l; simp [Nat.toDigitsCore]
  | succ f ih =>
    intro n l
    by_cases h : n / 10 = 0
    · simp [Nat.toDigitsCore, h]
    · simp only [Nat.toDigitsCore, h, if_false]
      rw [ih (n / 10) (Nat.digitChar (n % 10) :: l), ih (n / 10) [Nat.digitChar (n % 10)]]
      simp

theorem evalDigits_snoc (l : List Char) (c : Char) :
    evalDigits (l ++ [c]) = 10 * evalDigits l + digitVal c := by
  simp [evalDigits, List.foldl_append]

theorem evalDigits_toDigitsCore (f : Nat) : ∀ n : Nat, n < f →
    evalDigits (Nat.toDigitsCore 10 f n []) = n := by
  induction f with
  | zero => intro n hn; exact absurd hn (Nat.not_lt_zero n)
  | succ f ih =>
    intro n hn
    by_cases h : n / 10 = 0
    · have hm : digitVal (Nat.digitChar (n % 10)) = n % 10 :=
        digitVal_digitChar (n % 10) (Nat.mod_lt n (by norm_num))
      simp [Nat.toDigitsCore, h, evalDigits, hm]
      omega
    · have hn0 : n ≠ 0 := fun h0 => h (by simp [h0])
      have hdiv : n / 10 < f := by omega
      simp only [Nat.toDigitsCore, h, if_false]
      rw [toDigitsCore_acc f (n / 10) [Nat.digitChar (n % 10)], evalDigits_snoc,
        ih (n / 10) hdiv, digitVal_digitChar (n % 10) (Nat.mod_lt n (by norm_num))]
      omega

theorem nat_repr_injective (n m : Nat) (h : Nat.repr n = Nat.repr m) :
    n = m := by
  have hd : Nat.toDigitsCore 10 (n + 1) n [] = Nat.toDigitsCore 10 (m + 1) m [] := by
    have hdata := congrArg String.data h
    simpa [Nat.repr, Nat.toDigits, List.asString] using hdata
  have h1 := evalDigits_toDigitsCore (n + 1) n (Nat.lt_succ_self n)
  have h2 := evalDigits_toDigitsCore (m + 1) m (Nat.lt_succ_self m)
  rw [hd] at h1
  exact h1.symm.trans h2

theorem string_append_left_cancel (a b c : String) (h : a ++ b = a ++ c) :
    b = c := by
  have hdata := congrArg String.data h
  rw [String.data_append, String.data_append] at hdata
  exact String.ext (List.append_cancel_left hdata)

theorem updateOfflineStats_pending (f : Faults) (now : Nat) (b : Bool)
    (s : Store) :
    (updateOfflineStats f now b s).pending_answers = s.pending_answers := by
  by_cases hr : f.readFails StorageKey.offlineStats
  · simp [updateOfflineStats, hr]
  · by_cases hws : f.writeFails StorageKey.offlineStats
    · simp [updateOfflineStats, hr, hws]
    · simp [updateOfflineStats, hr, hws]

/-- Counterexample to C6 as stated: identifiers are
`pending_${Date.now()}`, so two enqueue calls in the same millisecond
(here both at time 5) produce the same identifier, and the queue then
holds two entries with equal - not pairwise distinct - identifiers. -/
theorem enqueue_same_millisecond_id_collision :
    (((queueAnswer noFaults 5 "q2" "b" 2 "t" (queueAnswer noFaults 5 "q1" "a" 1 "t" emptyStore).2).2).pending_answers.getD []).map PendingAnswer.id = ["pending_5", "pending_5"] ∧
    ¬ ((((queueAnswer noFaults 5 "q2" "b" 2 "t" (queueAnswer noFaults 5 "q1" "a" 1 "t" emptyStore).2).2).pending_answers.getD []).map PendingAnswer.id).Nodup := by
  constructor <;> decide

/-- Claim C6 (amended): an enqueue durably appends the new PendingResult
at the tail of the queue (so submission order is preserved by queue
order) with identifier `pending_` followed by the decimal millisecond
timestamp; two enqueue calls at distinct timestamps receive distinct
identifiers - but calls within the same millisecond receive identical
identifiers, so identifiers in the queue need not be pairwise
distinct. -/
theorem enqueue_append_and_distinct_time_ids (f : Faults)
    (now1 now2 : Nat) (qid ua : String) (rt : Nat) (topic : String)
    (s : Store) (h : now1 ≠ now2)
    (hw : f.writeFails StorageKey.pendingAnswers = false) :
    (queueAnswer f now1 qid ua rt topic s).2.pending_answers =
      some (getPendingAnswers f s ++ [{ id := "pending_" ++ Nat.repr now1, question_id := qid, user_answer := ua, response_time_ms := rt, answered_at := now1, topic_slug := topic }]) ∧
    ("pending_" ++ Nat.repr now1 : String) ≠ "pending_" ++ Nat.repr now2 := by
  constructor
  · simp [queueAnswer, hw, updateOfflineStats_pending]
  · intro hid
    exact h (nat_repr_injective now1 now2 (string_append_left_cancel "pending_" (Nat.repr now1) (Nat.repr now2) hid))

/-- Witness for the amended C6 at timestamps 5 and 6: the enqueue at
time 5 appends its record at the tail, and the identifiers of the two
timestamps differ. -/
theorem enqueue_append_and_distinct_time_ids_witness :
    (queueAnswer noFaults 5 "w" "ans" 9 "t" emptyStore).2.pending_answers =
      some (getPendingAnswers noFaults emptyStore ++ [{ id := "pending_" ++ Nat.repr 5, question_id := "w", user_answer := "ans", response_time_ms := 9, answered_at := 5, topic_slug := "t" }]) ∧
    ("pending_" ++ Nat.repr 5 : String) ≠ "pending_" ++ Nat.repr 6 :=
  enqueue_append_and_distinct_time_ids noFaults 5 6 "w" "ans" 9 "t" emptyStore (by decide) rfl

/-- Counterexample to C7 as stated: with storage whose writes raise, the
cited operations `queueAnswer` and `cacheQuestions` let the storage
error escape to the caller instead of recovering with a safe default
(their `setItem` calls sit outside any try/catch in the source). -/
theorem storage_write_error_escapes :
    (queueAnswer allFaults 0 "q" "a" 1 "t" emptyStore).1 = Except.error storageWriteError ∧
    (cacheQuestions allFaults true (fun _ => Except.ok "w") 0 "t" 1 none emptyStore).1 = Except.error storageWriteError :=
  ⟨rfl, rfl⟩

/-- Claim C7 (amended): storage READ failures are recovered locally with
safe defaults - cached-question reads and pending-answer reads return
the empty list and progress reads return `none`, with no error
propagated - but storage WRITE failures are not caught: `queueAnswer`
propagates the write error to its caller (leaving the store
unchanged). -/
theorem storage_read_failures_recovered (f : Faults) (now : Nat)
    (topic : String) (s : Store)
    (h1 : f.readFails StorageKey.cachedQuestions = true)
    (h2 : f.readFails StorageKey.pendingAnswers = true)
    (h3 : f.readFails StorageKey.userProgress = true)
    (h4 : f.writeFails StorageKey.pendingAnswers = true) :
    getCachedQuestions f now (some topic) s = [] ∧
    getCachedQuestions f now none s = [] ∧
    getPendingAnswers f s = [] ∧
    getProgress f s = none ∧
    queueAnswer f now "q" "a" 1 topic s = (Except.error storageWriteError, s) := by
  refine ⟨?_, ?_, ?_, ?_, ?_⟩ <;>
    simp [getCachedQuestions, getPendingAnswers, getProgress, queueAnswer, h1, h2, h3, h4]

/-- Witness for the amended C7 on the all-faults storage: reads recover
with the safe defaults while the queue write error escapes. -/
theorem storage_read_failures_recovered_witness :
    getCachedQuestions allFaults 3 (some "t") emptyStore = [] ∧
    getCachedQuestions allFaults 3 none emptyStore = [] ∧
    getPendingAnswers allFaults emptyStore = [] ∧
    getProgress allFaults emptyStore = none ∧
    queueAnswer allFaults 3 "q" "a" 1 "t" emptyStore = (Except.error storageWriteError, emptyStore) :=
  storage_read_failures_recovered allFaults 3 "t" emptyStore rfl rfl rfl rfl

/-- Claim C10: when no progress snapshot was ever stored (`getProgress`
yields `none`), applying a mastery delta leaves the persistent store
completely unchanged: the delta is dropped and no snapshot is created. -/
theorem mastery_delta_dropped_without_snapshot (f : Faults) (now : Nat)
    (topic : String) (mastery : Int) (s : Store)
    (h : getProgress f s = none) :
    updateLocalMastery f now topic mastery s = (Except.ok (), s) := by
  unfold updateLocalMastery
  rw [h]

/-- Witness for C10: on the empty store the snapshot read yields `none`
and the mastery update returns the store untouched. -/
theorem mastery_delta_dropped_without_snapshot_witness :
    getProgress noFaults emptyStore = none ∧
    updateLocalMastery noFaults 7 "fractions" 3 emptyStore = (Except.ok (), emptyStore) :=
  ⟨rfl, mastery_delta_dropped_without_snapshot noFaults 7 "fractions" 3 emptyStore rfl⟩

theorem opsIds_cons (op : CacheOp) (ops : List CacheOp) :
    opsIds (op :: ops) = fillIds op ++ opsIds ops := by
  simp [opsIds]

theorem getCachedQuestions_sublist_cacheList (f : Faults) (now : Nat)
    (s : Store) :
    (getCachedQuestions f now none s).Sublist (cacheList s) := by
  unfold getCachedQuestions
  split
  · exact List.nil_sublist _
  · exact List.filter_sublist _

theorem cacheIds_fill_sublist (online : Bool)
    (fetch : Nat → Except String String) (now : Nat) (topic : String)
    (count : Nat) (diff : Option Nat) (s : Store) :
    (cacheIds (cacheQuestions noFaults online fetch now topic count diff s).2).Sublist
      (cacheIds s ++ fillIds (CacheOp.fill online fetch now topic count diff)) := by
  cases online with
  | false => simp [cacheQuestions, fillIds]
  | true =>
    have h1 : (cacheQuestions noFaults true fetch now topic count diff s).2 =
        { s with cached_questions := some ((getCachedQuestions noFaults now none s ++ fillBatch fetch now topic count diff).filter fun q => decide (now < q.expires_at)) } := by
      simp [cacheQuestions, noFaults]
    rw [h1]
    have hsub : ((getCachedQuestions noFaults now none s ++ fillBatch fetch now topic count diff).filter fun q => decide (now < q.expires_at)).Sublist (cacheList s ++ fillBatch fetch now topic count diff) :=
      List.Sublist.trans (List.filter_sublist _)
        (List.Sublist.append (getCachedQuestions_sublist_cacheList noFaults now s) (List.Sublist.refl _))
    have h2 := List.Sublist.map CachedQuestion.id hsub
    simpa [cacheIds, cacheList, fillIds] using h2

theorem cacheIds_take_sublist (now : Nat) (topic : String) (s : Store) :
    (cacheIds (getOfflineQuestion noFaults now topic s).2).Sublist (cacheIds s) := by
  cases hq : getCachedQuestions noFaults now (some topic) s with
  | nil =>
    rw [getOfflineQuestion_of_empty _ _ _ _ hq]
  | cons first tl =>
    rw [getOfflineQuestion_of_cons _ _ _ _ first tl hq rfl]
    have h1 : ((getCachedQuestions noFaults now none s).filter fun q => q.id != first.id).Sublist (cacheList s) :=
      List.Sublist.trans (List.filter_sublist _) (getCachedQuestions_sublist_cacheList noFaults now s)
    have h2 := List.Sublist.map CachedQuestion.id h1
    simpa [cacheIds, cacheList] using h2

theorem take_head_not_in_new_cache (now : Nat) (topic : String) (s : Store)
    (first : CachedQuestion) (tl : List CachedQuestion)
    (hq : getCachedQuestions noFaults now (some topic) s = first :: tl) :
    first.id ∉ cacheIds (getOfflineQuestion noFaults now topic s).2 := by
  rw [getOfflineQuestion_of_cons _ _ _ _ first tl hq rfl]
  intro hmem
  simp only [cacheIds, cacheList, Option.getD_some, List.mem_map, List.mem_filter] at hmem
  obtain ⟨q, ⟨hqmem, hne⟩, hid⟩ := hmem
  rw [hid] at hne
  simp at hne

theorem head_mem_cacheIds (f : Faults) (now : Nat) (topic : String)
    (s : Store) (first : CachedQuestion) (tl : List CachedQuestion)
    (hq : getCachedQuestions f now (some topic) s = first :: tl) :
    first.id ∈ cacheIds s := by
  have hmem : first ∈ getCachedQuestions f now (some topic) s := by
    rw [hq]; exact List.mem_cons_self _ _
  exact List.mem_map_of_mem CachedQuestion.id
    (mem_getCachedQuestions_mem_cache f now (some topic) s first hmem)

theorem runCacheOps_nodup (ops : List CacheOp) : ∀ s : Store,
    (cacheIds s ++ opsIds ops).Nodup →
    (runCacheOps ops s).1.Nodup ∧
      ∀ x ∈ (runCacheOps ops s).1, x ∈ cacheIds s ++ opsIds ops := by
  induction ops with
  | nil =>
    intro s h
    exact ⟨List.nodup_nil, by simp [runCacheOps]⟩
  | cons op rest ih =>
    intro s h
    cases op with
    | fill online fetch now topic count diff =>
      have hsub : (cacheIds (cacheQuestions noFaults online fetch now topic count diff s).2 ++ opsIds rest).Sublist (cacheIds s ++ opsIds (CacheOp.fill online fetch now topic count diff :: rest)) := by
        have h2 := List.Sublist.append (cacheIds_fill_sublist online fetch now topic count diff s) (List.Sublist.refl (opsIds rest))
        simpa [opsIds_cons, List.append_assoc] using h2
      obtain ⟨hnd, hmem⟩ := ih _ (List.Nodup.sublist hsub h)
      constructor
      · simpa only [runCacheOps] using hnd
      · intro x hx
        simp only [runCacheOps] at hx
        exact List.Sublist.subset hsub (hmem x hx)
    | take now topic =>
      have hops : opsIds (CacheOp.take now topic :: rest) = opsIds rest := by
        simp [opsIds_cons, fillIds]
      rw [hops] at h ⊢
      cases hq : getCachedQuestions noFaults now (some topic) s with
      | nil =>
        have hs2 : (getOfflineQuestion noFaults now topic s).2 = s :=
          congrArg Prod.snd (getOfflineQuestion_of_empty _ _ _ _ hq)
        obtain ⟨hnd, hmem⟩ := ih s h
        constructor
        · simp only [runCacheOps]
          rw [hq, hs2]
          simpa using hnd
        · intro x hx
          simp only [runCacheOps] at hx
          rw [hq, hs2] at hx
          simp only [List.head?_nil, Option.map_none, Option.toList_none, List.nil_append] at hx
          exact hmem x hx
      | cons first tl =>
        have hsubc : (cacheIds (getOfflineQuestion noFaults now topic s).2).Sublist (cacheIds s) :=
          cacheIds_take_sublist now topic s
        have hnd2 : (cacheIds (getOfflineQuestion noFaults now topic s).2 ++ opsIds rest).Nodup :=
          List.Nodup.sublist (List.Sublist.append hsubc (List.Sublist.refl _)) h
        obtain ⟨hnd, hmem⟩ := ih _ hnd2
        have hfid_cache : first.id ∈ cacheIds s :=
          head_mem_cacheIds noFaults now topic s first tl hq
        have hdisj : (cacheIds s).Disjoint (opsIds rest) := (List.nodup_append.mp h).2.2
        have hfid_rest : first.id ∉ opsIds rest := fun hm => hdisj hfid_cache hm
        have hfid_s2 : first.id ∉ cacheIds (getOfflineQuestion noFaults now topic s).2 :=
          take_head_not_in_new_cache now topic s first tl hq
        have hfid_run : first.id ∉ (runCacheOps rest (getOfflineQuestion noFaults now topic s).2).1 := by
          intro hm
          rcases List.mem_append.mp (hmem _ hm) with hm1 | hm2
          · exact hfid_s2 hm1
          · exact hfid_rest hm2
        constructor
        · simp only [runCacheOps]
          rw [hq]
          simp only [List.head?_cons, Option.map_some, Option.toList_some, List.singleton_append]
          exact List.nodup_cons.mpr ⟨hfid_run, hnd⟩
        · intro x hx
          simp only [runCacheOps] at hx
          rw [hq] at hx
          simp only [List.head?_cons, Option.map_some, Option.toList_some, List.singleton_append, List.mem_cons] at hx
          rcases List.mem_cons.mp hx with hxeq | hxrun
          · exact List.mem_append_left _ (hxeq ▸ hfid_cache)
          · rcases List.mem_append.mp (hmem x hxrun) with hm1 | hm2
            · exact List.mem_append_left _ (List.Sublist.subset hsubc hm1)
            · exact List.mem_append_right _ hm2

/-- Counterexample to C5 as stated: cache item identifiers are
`cached_${Date.now()}_${index}`, so two one-item fills in the same
millisecond both generate the identifier `cached_0_0`; the first take
delivers that identifier and removes the item, the second fill
re-creates the identifier, and the second take delivers the same
identifier again - so over this fill/take sequence an identifier is
returned twice. -/
theorem take_repeats_id_on_colliding_fills :
    (runCacheOps collideOps emptyStore).1 = ["cached_0_0", "cached_0_0"] ∧
    ¬ (runCacheOps collideOps emptyStore).1.Nodup := by
  constructor <;> decide

/-- Claim C5 (amended): over any sequence of fill and take operations
whose generated item identifiers (together with any identifiers already
in the cache) are pairwise distinct - which the code does not itself
guarantee when two fills run in the same millisecond - take never
delivers the same identifier twice: a delivered item is removed from the
persisted set and no later take of the sequence returns its
identifier. -/
theorem take_at_most_once_of_distinct_ids (ops : List CacheOp) (s : Store)
    (h : (cacheIds s ++ opsIds ops).Nodup) :
    (runCacheOps ops s).1.Nodup :=
  (runCacheOps_nodup ops s h).1

/-- Witness for the amended C5: the colliding trace with the second fill
moved one millisecond later generates pairwise distinct identifiers, and
the delivered identifiers are then pairwise distinct as well. -/
theorem take_at_most_once_of_distinct_ids_witness :
    (cacheIds emptyStore ++ opsIds freshOps).Nodup ∧
    (runCacheOps freshOps emptyStore).1.Nodup :=
  ⟨by decide, take_at_most_once_of_distinct_ids freshOps emptyStore (by decide)⟩

end Offline
